import Mathlib

/-!
Shallow embedding of the socket manager in `src/io_net.c` of lua-apr
(network I/O module of the Lua/APR binding), together with theorems that
settle the spec claims about it.

Modelling conventions:

* `lua_apr_socket` mirrors the C struct of the same name: address family and
  protocol, a nullable native descriptor (`handle : Option AprSocket`), a
  nullable memory pool (`pool : Option Nat`, the `Nat` being an arena
  identity), and the attached read/write buffer state.
* Native APR calls are external collaborators; every operation that can make
  such a call is parameterized by the status each native call would return
  (`0 = APR_SUCCESS`), and the native state effects are modelled on the
  `AprSocket` record.  Each public operation also returns the list of
  native/engine calls it actually performed, so that "no native call is made
  on a closed handle" is a statement about the model.
* Lua-level results are `LuaResult α`: `ok` (success values), `err status`
  (the `nil` + message pair produced by `push_error_status`/`push_status`),
  or `raised msg` (a Lua error thrown via `luaL_error`/`luaL_argerror`).
-/

/-- `APR_SUCCESS`. -/
def APR_SUCCESS : Nat := 0

/-- Platform address-family constants (`AF_UNSPEC`, `AF_INET`, `AF_INET6`). -/
def APR_UNSPEC : Int := 0

/-- `APR_INET` (= `AF_INET`). -/
def APR_INET : Int := 2

/-- `APR_INET6` (= `AF_INET6` on Linux). -/
def APR_INET6 : Int := 10

/-- `APR_PROTO_TCP` (IPPROTO_TCP). -/
def APR_PROTO_TCP : Int := 6

/-- `APR_PROTO_UDP` (IPPROTO_UDP). -/
def APR_PROTO_UDP : Int := 17

/-- `SOCK_STREAM`. -/
def SOCK_STREAM : Int := 1

/-- `SOCK_DGRAM`. -/
def SOCK_DGRAM : Int := 2

/-- The message of the error raised by `socket_check` on a closed handle. -/
def closedMsg : String := "attempt to use a closed socket"

/-- Result of a Lua-facing operation: a success value, the `nil` plus
error-message pair derived from a native status code, or a raised Lua
error. -/
inductive LuaResult (α : Type) where
  | ok : α → LuaResult α
  | err : Nat → LuaResult α
  | raised : String → LuaResult α
deriving DecidableEq, Repr

/-- `push_status`: `APR_SUCCESS` becomes `true`, anything else the
`nil` + message pair. -/
def push_status (st : Nat) : LuaResult Bool :=
  if st = APR_SUCCESS then .ok true else .err st

/-- Lua values as they reach the socket API (only the distinctions the
module observes). -/
inductive LuaVal where
  | nil
  | boolean (b : Bool)
  | number (n : Int)
  | str (s : String)
  | table
deriving DecidableEq, Repr

/-- Accumulator for `str2num`: reads decimal digits, failing on any other
character. -/
def digitsAux : List Char → Nat → Option Nat
  | [], acc => some acc
  | c :: cs, acc =>
    if 48 ≤ c.toNat ∧ c.toNat ≤ 57 then digitsAux cs (acc * 10 + (c.toNat - 48))
    else none

/-- Lua's string→number coercion, restricted to plain decimal digit strings
(a conservative under-approximation of the host's conversion: every string
it accepts is accepted by Lua, with the same value). -/
def str2num (s : String) : Option Int :=
  match s.data with
  | [] => none
  | cs => (digitsAux cs 0).map Int.ofNat

/-- `lua_isnumber`: true for numbers and for strings convertible to a
number. -/
def lua_isnumber : LuaVal → Bool
  | .number _ => true
  | .str s => (str2num s).isSome
  | _ => false

/-- `luaL_checkinteger`, evaluated only on arguments satisfying
`lua_isnumber` (elsewhere the value is irrelevant to the model). -/
def luaL_checkinteger_val : LuaVal → Int
  | .number n => n
  | .str s => (str2num s).getD 0
  | _ => 0

/-- `lua_toboolean`: everything is truthy except `nil` and `false`. -/
def lua_toboolean : LuaVal → Bool
  | .nil => false
  | .boolean b => b
  | _ => true

/-- State of the native `apr_socket_t` a handle points at. -/
structure AprSocket where
  /-- native timeout: negative = forever, `0` = immediate, positive =
  microseconds. New APR sockets block forever. -/
  timeout : Int := -1
  listening : Bool := false
  /-- size of the listen queue installed by `apr_socket_listen`. -/
  queue : Nat := 0
  connected : Bool := false
  bound : Bool := false
deriving DecidableEq, Repr

/-- `lua_apr_writebuf`: write-buffered data and the bytes already handed to
the native send path by `flush_buffer`. -/
structure lua_apr_writebuf where
  data : List String := []
  sent : List String := []
deriving DecidableEq, Repr

/-- `lua_apr_readbuf` (internals owned by the buffered I/O engine). -/
structure lua_apr_readbuf where
  avail : List String := []
deriving DecidableEq, Repr

/-- The `lua_apr_socket` object structure.  `handle = none` models a `NULL`
descriptor (closed), `pool = none` a `NULL`/destroyed pool; the `Nat` in
`pool` is the identity of the arena created for this object. -/
structure lua_apr_socket where
  input : lua_apr_readbuf := {}
  output : lua_apr_writebuf := {}
  pool : Option Nat := none
  handle : Option AprSocket := none
  family : Int := 0
  protocol : Int := 0
  /-- whether `socket_init` (`init_buffers`) has run on this object. -/
  buffersInit : Bool := false
deriving DecidableEq, Repr

/-- `socket_alloc(L, family, protocol, &objptr)`: pushes a fresh object with
the given family/protocol and creates its pool.  `poolStatus` is the status
`apr_pool_create` returns and `freshId` the identity of the new arena.  The
`Option` models the out-pointer: mirroring the source, `*objptr` is
assigned only when the pool creation succeeded, so on failure the caller's
local variable is left unset (`none`). -/
def socket_alloc (family protocol : Int) (poolStatus : Nat) (freshId : Nat) :
    Nat × Option lua_apr_socket :=
  (poolStatus,
    if poolStatus = APR_SUCCESS then
      some { family := family, protocol := protocol, pool := some freshId, handle := none }
    else none)

/-- `socket_init(L, object)`: wires the buffered I/O engine
(`init_buffers` with `apr_socket_recv`/`apr_socket_send`). -/
def socket_init (o : lua_apr_socket) : lua_apr_socket :=
  { o with buffersInit := true }

/-- `socket_check(L, i, open)`: raises "attempt to use a closed socket" when
an open handle is required but the descriptor is `NULL`. -/
def socket_check (o : lua_apr_socket) (openReq : Bool) :
    Except String lua_apr_socket :=
  if openReq ∧ o.handle.isNone then .error closedMsg else .ok o

/-- `socket_close_impl(L, object)`: idempotent teardown.  Closes the
descriptor if non-`NULL` and nulls it, destroys the pool if non-`NULL` and
nulls it.  Returns the close status, the new object state, and the list of
native calls performed. -/
def socket_close_impl (closeStatus : Nat) (o : lua_apr_socket) :
    Nat × lua_apr_socket × List String :=
  let (status, o, tr) :=
    match o.handle with
    | some _ => (closeStatus, { o with handle := none }, ["apr_socket_close"])
    | none => (APR_SUCCESS, o, [])
  match o.pool with
  | some _ => (status, { o with pool := none }, tr ++ ["apr_pool_destroy"])
  | none => (status, o, tr)

/-- `family_check(L, i)`: `luaL_checkoption` over the family tokens, whose
table contains `"inet6"` only when the platform has IPv6
(`APR_HAVE_IPV6`); an absent argument defaults to `"inet"`, a token outside
the table raises a Lua argument error. -/
def family_check (haveIPv6 : Bool) (arg : Option String) : Except String Int :=
  let tok := arg.getD "inet"
  if tok = "inet" then .ok APR_INET
  else if tok = "inet6" ∧ haveIPv6 then .ok APR_INET6
  else if tok = "unspec" then .ok APR_UNSPEC
  else .error ("invalid option " ++ tok)

/-- The protocol option check in `lua_apr_socket_create`
(`luaL_checkoption` over `{"tcp", "udp"}`, default `"tcp"`). -/
def proto_check (arg : Option String) : Except String Int :=
  let tok := arg.getD "tcp"
  if tok = "tcp" then .ok APR_PROTO_TCP
  else if tok = "udp" then .ok APR_PROTO_UDP
  else .error ("invalid option " ++ tok)

/-- `apr.socket_create([protocol [, family]])`.  `poolStatus` and
`createStatus` are the statuses `apr_pool_create` and `apr_socket_create`
would return; `freshId` the identity of the new arena.  Option checks raise
on bad tokens before anything is allocated; native failures surface as the
`nil` + message pair. -/
def lua_apr_socket_create (haveIPv6 : Bool) (poolStatus createStatus : Nat)
    (freshId : Nat) (protoArg famArg : Option String) :
    LuaResult lua_apr_socket × List String :=
  match proto_check protoArg with
  | .error m => (.raised m, [])
  | .ok protocol =>
    match family_check haveIPv6 famArg with
    | .error m => (.raised m, [])
    | .ok family =>
      let _type : Int := if protocol = APR_PROTO_TCP then SOCK_STREAM else SOCK_DGRAM
      let (status, objectOpt) := socket_alloc family protocol poolStatus freshId
      match objectOpt with
      | none =>
        -- pool creation failed; the object is never dereferenced here
        (.err status, ["apr_pool_create"])
      | some object =>
        if createStatus = APR_SUCCESS then
          (.ok (socket_init { object with handle := some {} }),
            ["apr_pool_create", "apr_socket_create", "init_buffers"])
        else (.err createStatus, ["apr_pool_create", "apr_socket_create"])

/-- `apr.host_to_addr(hostname [, family])`.  The family token is checked
before any resolution is attempted; `infoStatus`/`ipStatus` are the statuses
of `apr_sockaddr_info_get` and `apr_sockaddr_ip_get`, `resolvedIp` the
address the native lookup would produce. -/
def lua_apr_host_to_addr (haveIPv6 : Bool) (infoStatus ipStatus : Nat)
    (resolvedIp : String) (_host : String) (famArg : Option String) :
    LuaResult String × List String :=
  match family_check haveIPv6 famArg with
  | .error m => (.raised m, [])
  | .ok _family =>
    if infoStatus ≠ APR_SUCCESS then (.err infoStatus, ["apr_sockaddr_info_get"])
    else if ipStatus ≠ APR_SUCCESS then
      (.err ipStatus, ["apr_sockaddr_info_get", "apr_sockaddr_ip_get"])
    else (.ok resolvedIp, ["apr_sockaddr_info_get", "apr_sockaddr_ip_get"])

/-- `apr.addr_to_host(ip_address [, family])`, same shape as
`lua_apr_host_to_addr` with `apr_getnameinfo` as the second native call. -/
def lua_apr_addr_to_host (haveIPv6 : Bool) (infoStatus nameStatus : Nat)
    (resolvedHost : String) (_ip : String) (famArg : Option String) :
    LuaResult String × List String :=
  match family_check haveIPv6 famArg with
  | .error m => (.raised m, [])
  | .ok _family =>
    if infoStatus ≠ APR_SUCCESS then (.err infoStatus, ["apr_sockaddr_info_get"])
    else if nameStatus ≠ APR_SUCCESS then
      (.err nameStatus, ["apr_sockaddr_info_get", "apr_getnameinfo"])
    else (.ok resolvedHost, ["apr_sockaddr_info_get", "apr_getnameinfo"])

/-- `socket:connect(host, port)`: open-handle check, then
`apr_sockaddr_info_get` with the handle's family, then
`apr_socket_connect`; the combined status goes through `push_status`. -/
def socket_connect (infoStatus connectStatus : Nat) (o : lua_apr_socket)
    (_host : String) (_port : Int) :
    LuaResult Bool × lua_apr_socket × List String :=
  match o.handle with
  | none => (.raised closedMsg, o, [])
  | some h =>
    if infoStatus ≠ APR_SUCCESS then
      (push_status infoStatus, o, ["apr_sockaddr_info_get"])
    else if connectStatus ≠ APR_SUCCESS then
      (push_status connectStatus, o, ["apr_sockaddr_info_get", "apr_socket_connect"])
    else
      (push_status APR_SUCCESS, { o with handle := some { h with connected := true } },
        ["apr_sockaddr_info_get", "apr_socket_connect"])

/-- `socket:bind(host, port)`: like `connect` but the host token `"*"` is
replaced by `APR_ANYADDR` (`"0.0.0.0"`) before resolution and the native
call is `apr_socket_bind`. -/
def socket_bind (infoStatus bindStatus : Nat) (o : lua_apr_socket)
    (host : String) (_port : Int) :
    LuaResult Bool × lua_apr_socket × List String :=
  match o.handle with
  | none => (.raised closedMsg, o, [])
  | some h =>
    let _host := if host = "*" then "0.0.0.0" else host
    if infoStatus ≠ APR_SUCCESS then
      (push_status infoStatus, o, ["apr_sockaddr_info_get"])
    else if bindStatus ≠ APR_SUCCESS then
      (push_status bindStatus, o, ["apr_sockaddr_info_get", "apr_socket_bind"])
    else
      (push_status APR_SUCCESS, { o with handle := some { h with bound := true } },
        ["apr_sockaddr_info_get", "apr_socket_bind"])

/-- `apr_socket_listen(sock, backlog)`.  Modelled from the native contract
the source's doc comment states: "If this value is less than zero, the
listen queue size is set to zero."  `listen(2)` itself never blocks. -/
def apr_socket_listen (listenStatus : Nat) (backlog : Int) (h : AprSocket) :
    Nat × AprSocket :=
  if listenStatus = APR_SUCCESS then
    (APR_SUCCESS,
      { h with listening := true, queue := if backlog < 0 then 0 else backlog.toNat })
  else (listenStatus, h)

/-- Two's-complement narrowing of a Lua integer to `apr_int32_t`, as
performed by the assignment `backlog = luaL_checkinteger(L, 2)` into the
`apr_int32_t` variable in `socket_listen`. -/
def toInt32 (n : Int) : Int := (n + 2 ^ 31) % 2 ^ 32 - 2 ^ 31

/-- `socket:listen(backlog)`: open-handle check, `luaL_checkinteger`
narrowed into the `apr_int32_t` backlog variable, then
`apr_socket_listen`. -/
def socket_listen (listenStatus : Nat) (o : lua_apr_socket) (backlogArg : Int) :
    LuaResult Bool × lua_apr_socket × List String :=
  match o.handle with
  | none => (.raised closedMsg, o, [])
  | some h =>
    let backlog := toInt32 backlogArg
    let (st, h') := apr_socket_listen listenStatus backlog h
    (push_status st, { o with handle := some h' }, ["apr_socket_listen"])

/-- Outcome of `socket:accept()`.  `raised` is the Lua error thrown by
`socket_check`; `err` carries the status of the `nil` + message pair
together with the client object left on the Lua stack (on which
`socket_init` has run); `ub` marks the path reached when `apr_pool_create`
failed: `socket_alloc` left the caller's local `client` pointer unassigned,
and the unconditional `socket_init(L, client)` then dereferences an
uninitialized pointer — undefined behavior in the source, after which
nothing about the call is guaranteed. -/
inductive AcceptOutcome where
  | raised (msg : String)
  | ok (client : lua_apr_socket)
  | err (status : Nat) (client : lua_apr_socket)
  | ub
deriving DecidableEq, Repr

/-- `socket:accept()`: open-handle check on the server, `socket_alloc` with
the server's family/protocol, `apr_socket_accept` only when allocation
succeeded, then — unconditionally, before the error check — `socket_init`
on the client local; a non-success status is returned as the
`nil` + message pair.  When the allocation itself failed the client local
was never assigned and the `socket_init` call is undefined behavior
(`AcceptOutcome.ub`).  The second component is the list of native/engine
calls performed up to the first undefined point. -/
def socket_accept (poolStatus acceptStatus : Nat) (freshId : Nat)
    (newsock : AprSocket) (server : lua_apr_socket) :
    AcceptOutcome × List String :=
  match server.handle with
  | none => (.raised closedMsg, [])
  | some _ =>
    let (_, clientOpt) :=
      socket_alloc server.family server.protocol poolStatus freshId
    match clientOpt with
    | none => (.ub, ["apr_pool_create"])
    | some client =>
      let (status, client) :=
        if acceptStatus = APR_SUCCESS then
          (APR_SUCCESS, { client with handle := some newsock })
        else (acceptStatus, client)
      let client := socket_init client
      if status ≠ APR_SUCCESS then
        (.err status client,
          ["apr_pool_create", "apr_socket_accept", "init_buffers"])
      else
        (.ok client, ["apr_pool_create", "apr_socket_accept", "init_buffers"])

/-- `read_buffer` of the buffered I/O engine (external collaborator). -/
def read_buffer (b : lua_apr_readbuf) : List String := b.avail

/-- `socket:read(...)`: open-handle check, then delegate to the engine. -/
def socket_read (o : lua_apr_socket) :
    LuaResult (List String) × lua_apr_socket × List String :=
  match o.handle with
  | none => (.raised closedMsg, o, [])
  | some _ => (.ok (read_buffer o.input), o, ["read_buffer"])

/-- `socket:lines()`: open-handle check, then delegate to the engine's line
iterator. -/
def socket_lines (o : lua_apr_socket) :
    LuaResult (List String) × lua_apr_socket × List String :=
  match o.handle with
  | none => (.raised closedMsg, o, [])
  | some _ => (.ok (read_buffer o.input), o, ["read_lines"])

/-- `write_buffer` of the engine: appends the written values to the output
buffer; the value it returns models `file:write`'s success result. -/
def write_buffer (b : lua_apr_writebuf) (vs : List String) :
    Nat × lua_apr_writebuf :=
  (1, { b with data := b.data ++ vs })

/-- `flush_buffer` of the engine: hands the buffered bytes to the native
send path (`apr_socket_send`, whose status is `sendStatus`); on failure the
buffer is not marked sent. -/
def flush_buffer (sendStatus : Nat) (b : lua_apr_writebuf) :
    Nat × lua_apr_writebuf :=
  if sendStatus = APR_SUCCESS then
    (APR_SUCCESS, { data := [], sent := b.sent ++ b.data })
  else (sendStatus, b)

/-- `socket:write(...)`: open-handle check, buffer the values, then always
flush synchronously; a flush failure is returned as the `nil` + message
pair instead of the write results. -/
def socket_write (sendStatus : Nat) (o : lua_apr_socket) (vs : List String) :
    LuaResult Nat × lua_apr_socket × List String :=
  match o.handle with
  | none => (.raised closedMsg, o, [])
  | some _ =>
    let (nresults, buf1) := write_buffer o.output vs
    let (st, buf2) := flush_buffer sendStatus buf1
    let o' := { o with output := buf2 }
    if st ≠ APR_SUCCESS then (.err st, o', ["write_buffer", "flush_buffer"])
    else (.ok nresults, o', ["write_buffer", "flush_buffer"])

/-- `socket:timeout_get()`: open-handle check, read the native timeout
(`getStatus` is the status `apr_socket_timeout_get` returns; on failure the
`nil` + message pair is returned), then encode it three ways:
negative → `true` (forever), zero → `false` (immediate), positive → the
number itself. -/
def socket_timeout_get (getStatus : Nat) (o : lua_apr_socket) :
    LuaResult LuaVal × lua_apr_socket × List String :=
  match o.handle with
  | none => (.raised closedMsg, o, [])
  | some h =>
    if getStatus ≠ APR_SUCCESS then
      (.err getStatus, o, ["apr_socket_timeout_get"])
    else if h.timeout ≤ 0 then
      (.ok (.boolean (h.timeout ≠ 0)), o, ["apr_socket_timeout_get"])
    else (.ok (.number h.timeout), o, ["apr_socket_timeout_get"])

/-- `socket:timeout_set(timeout)`: open-handle check; a value satisfying
`lua_isnumber` is passed through `luaL_checkinteger` unchanged, anything
else is coerced by truthiness (truthy → `-1` forever, `nil`/`false` → `0`
immediate); the result is handed to the native `apr_socket_timeout_set`,
whose status (`setStatus`) goes through `push_status` — on failure the
stored timeout is not updated. -/
def socket_timeout_set (setStatus : Nat) (o : lua_apr_socket) (v : LuaVal) :
    LuaResult Bool × lua_apr_socket × List String :=
  match o.handle with
  | none => (.raised closedMsg, o, [])
  | some h =>
    let timeout : Int :=
      if lua_isnumber v then luaL_checkinteger_val v
      else if lua_toboolean v then -1 else 0
    if setStatus = APR_SUCCESS then
      (push_status setStatus,
        { o with handle := some { h with timeout := timeout } },
        ["apr_socket_timeout_set"])
    else (push_status setStatus, o, ["apr_socket_timeout_set"])

/-- `socket:addr_get([type])`: open-handle check, option check over
`{"local", "remote"}` (default `"remote"`), then `apr_socket_addr_get` and
`apr_sockaddr_ip_get`. -/
def socket_addr_get (addrStatus ipStatus : Nat) (ip hostname : String)
    (o : lua_apr_socket) (whichArg : Option String) :
    LuaResult (String × String) × lua_apr_socket × List String :=
  match o.handle with
  | none => (.raised closedMsg, o, [])
  | some _ =>
    let tok := whichArg.getD "remote"
    if tok ≠ "local" ∧ tok ≠ "remote" then
      (.raised ("invalid option " ++ tok), o, [])
    else if addrStatus ≠ APR_SUCCESS then
      (.err addrStatus, o, ["apr_socket_addr_get"])
    else if ipStatus ≠ APR_SUCCESS then
      (.err ipStatus, o, ["apr_socket_addr_get", "apr_sockaddr_ip_get"])
    else (.ok (ip, hostname), o, ["apr_socket_addr_get", "apr_sockaddr_ip_get"])

/-- `socket:close()`: `socket_check` with `open = 1` (so a second close on
an already-closed handle raises), then the idempotent teardown, then
`push_status`. -/
def socket_close (closeStatus : Nat) (o : lua_apr_socket) :
    LuaResult Bool × lua_apr_socket × List String :=
  match socket_check o true with
  | .error m => (.raised m, o, [])
  | .ok o =>
    let (st, o', tr) := socket_close_impl closeStatus o
    (push_status st, o', tr)

/-- `socket:__tostring()`: `socket_check` with `open = 0` (never raises),
then a status string built from the descriptor's nullness. -/
def socket_tostring (o : lua_apr_socket) : LuaResult String :=
  match socket_check o false with
  | .error m => .raised m
  | .ok o =>
    .ok ((if o.handle.isSome then "Open" else "Closed") ++ " Lua/APR socket object")

/-- `socket:__gc()`: `socket_check` with `open = 0`, then the idempotent
teardown; any close status is dropped. -/
def socket_gc (closeStatus : Nat) (o : lua_apr_socket) :
    lua_apr_socket × List String :=
  match socket_check o false with
  | .error _ => (o, [])
  | .ok o =>
    let (_, o', tr) := socket_close_impl closeStatus o
    (o', tr)

/-- A concrete open TCP/IPv4 socket object, as produced by a successful
`apr.socket_create()`. -/
def sock0 : lua_apr_socket :=
  { pool := some 1, handle := some {}, family := APR_INET,
    protocol := APR_PROTO_TCP, buffersInit := true }

/-- A concrete closed socket object (after teardown: descriptor and pool
both `NULL`). -/
def sockClosed : lua_apr_socket :=
  { pool := none, handle := none, family := APR_INET,
    protocol := APR_PROTO_TCP, buffersInit := true }

/-- C1, counterexample: on a freshly open socket the first `close` succeeds
with `true`, but the second `close` raises "attempt to use a closed socket"
(because `socket_close` goes through `socket_check(L, 1, 1)`), so it is not
a no-op returning success. -/
theorem C1_second_close_raises_cex :
    (socket_close APR_SUCCESS sock0).1 = .ok true ∧
    (socket_close APR_SUCCESS ((socket_close APR_SUCCESS sock0).2.1)).1 =
      .raised closedMsg ∧
    (LuaResult.raised closedMsg : LuaResult Bool) ≠ .ok true := by
  decide

/-- C1, amended: after a successful `close`, a second public `close` raises
the closed-socket error (leaving the object unchanged and performing no
native call), while the shared teardown routine `socket_close_impl` itself
is idempotent: run again (as on the finalizer path) it returns success,
changes nothing, and performs no second native close or pool destroy. -/
theorem C1_close_idempotent (o : lua_apr_socket) (h : AprSocket) (st' : Nat)
    (hopen : o.handle = some h) :
    (socket_close APR_SUCCESS o).1 = .ok true ∧
    (socket_close st' ((socket_close APR_SUCCESS o).2.1)).1 = .raised closedMsg ∧
    (socket_close st' ((socket_close APR_SUCCESS o).2.1)).2.1 =
      (socket_close APR_SUCCESS o).2.1 ∧
    (socket_close st' ((socket_close APR_SUCCESS o).2.1)).2.2 = [] ∧
    socket_close_impl st' ((socket_close APR_SUCCESS o).2.1) =
      (APR_SUCCESS, (socket_close APR_SUCCESS o).2.1, []) := by
  cases o with
  | mk input output pool handle family protocol buffersInit =>
    subst hopen
    cases pool <;>
      simp [socket_close, socket_check, socket_close_impl, push_status, APR_SUCCESS]

/-- C1, witness: the amended theorem at the concrete open socket. -/
theorem C1_close_idempotent_witness :
    (socket_close APR_SUCCESS sock0).1 = .ok true ∧
    (socket_close 5 ((socket_close APR_SUCCESS sock0).2.1)).1 =
      .raised closedMsg := by
  have h := C1_close_idempotent sock0 {} 5 rfl
  exact ⟨h.1, h.2.1⟩

/-- C3: every I/O or configuration operation on a handle whose descriptor
is `NULL` fails by raising the closed-handle error, leaves the object
unchanged, and performs no native or engine call (empty trace) — in
particular no second teardown. -/
theorem C3_closed_ops (o : lua_apr_socket) (hclosed : o.handle = none)
    (s1 s2 s3 s4 s5 s6 s7 : Nat) (fid : Nat) (ns : AprSocket)
    (host : String) (port backlog : Int) (vs : List String) (tv : LuaVal)
    (which : Option String) (ipS hostS : String) :
    socket_connect s1 s2 o host port = (.raised closedMsg, o, []) ∧
    socket_bind s1 s2 o host port = (.raised closedMsg, o, []) ∧
    socket_listen s3 o backlog = (.raised closedMsg, o, []) ∧
    socket_accept s4 s5 fid ns o = (.raised closedMsg, []) ∧
    socket_read o = (.raised closedMsg, o, []) ∧
    socket_write s6 o vs = (.raised closedMsg, o, []) ∧
    socket_lines o = (.raised closedMsg, o, []) ∧
    socket_timeout_get s6 o = (.raised closedMsg, o, []) ∧
    socket_timeout_set s6 o tv = (.raised closedMsg, o, []) ∧
    socket_addr_get s7 s1 ipS hostS o which = (.raised closedMsg, o, []) := by
  simp [socket_connect, socket_bind, socket_listen, socket_accept, socket_read,
    socket_write, socket_lines, socket_timeout_get, socket_timeout_set,
    socket_addr_get, hclosed]

/-- C3, witness: the closed-handle behaviour at a concrete torn-down
socket. -/
theorem C3_closed_ops_witness :
    socket_connect 0 0 sockClosed "localhost" 80 =
      (.raised closedMsg, sockClosed, []) ∧
    socket_write 0 sockClosed ["x"] = (.raised closedMsg, sockClosed, []) := by
  have h := C3_closed_ops sockClosed rfl 0 0 0 0 0 0 0 7 {} "localhost" 80 5
    ["x"] .nil none "ip" "host"
  exact ⟨h.1, h.2.2.2.2.2.1⟩

/-- C9: `__tostring` never raises for any socket object in any state: it
returns exactly the status string, `"Open ..."` when the descriptor is
non-`NULL` and `"Closed ..."` when it is `NULL`; hence a successful
`create` describes as open and after `close` the object describes as
closed. -/
theorem C9_tostring_total (o : lua_apr_socket) :
    socket_tostring o =
      .ok ((if o.handle.isSome then "Open" else "Closed") ++
        " Lua/APR socket object") ∧
    (∀ m, socket_tostring o ≠ .raised m) ∧
    (∀ haveIPv6 fid pa fa obj tr,
      lua_apr_socket_create haveIPv6 APR_SUCCESS APR_SUCCESS fid pa fa =
        (.ok obj, tr) →
      socket_tostring obj = .ok "Open Lua/APR socket object") ∧
    (∀ st h, o.handle = some h →
      socket_tostring ((socket_close st o).2.1) =
        .ok "Closed Lua/APR socket object") := by
  refine ⟨by simp [socket_tostring, socket_check], ?_, ?_, ?_⟩
  · intro m
    simp [socket_tostring, socket_check]
  · intro haveIPv6 fid pa fa obj tr hcreate
    cases hpa : proto_check pa with
    | error m => simp [lua_apr_socket_create, hpa] at hcreate
    | ok protocol =>
      cases hfa : family_check haveIPv6 fa with
      | error m => simp [lua_apr_socket_create, hpa, hfa] at hcreate
      | ok family =>
        simp [lua_apr_socket_create, hpa, hfa, socket_alloc, socket_init,
          APR_SUCCESS] at hcreate
        simp [← hcreate.1, socket_tostring, socket_check]
  · intro st h hopen
    cases o with
    | mk input output pool handle family protocol buffersInit =>
      subst hopen
      cases pool <;>
        simp [socket_close, socket_check, socket_close_impl, push_status,
          socket_tostring, APR_SUCCESS]

/-- C9, witness: describe at a concrete open socket, after close, and at a
fully torn-down object. -/
theorem C9_tostring_witness :
    socket_tostring sock0 = .ok "Open Lua/APR socket object" ∧
    socket_tostring ((socket_close 0 sock0).2.1) =
      .ok "Closed Lua/APR socket object" ∧
    socket_tostring sockClosed = .ok "Closed Lua/APR socket object" := by
  refine ⟨(C9_tostring_total sock0).1, ?_, (C9_tostring_total sockClosed).1⟩
  exact (C9_tostring_total sock0).2.2.2 0 {} rfl

/-- C2: on a failed native `apr_socket_accept` (allocation succeeded) the
claim's behaviour holds — `socket:accept()` returns the `nil` + message
pair carrying the failure status, never a usable handle, with `socket_init`
still run on the client object whose descriptor is `NULL`.  But when the
client allocation itself (`apr_pool_create`) fails, the source leaves the
local `client` pointer unassigned and still calls `socket_init(L, client)`
before the status check: undefined behavior, so the error return the claim
promises for allocation failure is not guaranteed by the code. -/
theorem C2_accept_failure (poolStatus acceptStatus freshId : Nat)
    (ns : AprSocket) (server : lua_apr_socket) (sh : AprSocket)
    (hs : server.handle = some sh) :
    (poolStatus ≠ APR_SUCCESS →
      (socket_accept poolStatus acceptStatus freshId ns server).1 = .ub) ∧
    (acceptStatus ≠ APR_SUCCESS →
      ∃ c, (socket_accept APR_SUCCESS acceptStatus freshId ns server).1 =
        .err acceptStatus c ∧ c.buffersInit = true ∧ c.handle = none) ∧
    (∀ c, (socket_accept APR_SUCCESS acceptStatus freshId ns server).1 ≠
      .err APR_SUCCESS c) ∧
    (∀ c, (socket_accept APR_SUCCESS acceptStatus freshId ns server).1 =
      .ok c → acceptStatus = APR_SUCCESS) := by
  refine ⟨?_, ?_, ?_, ?_⟩
  · intro hp
    simp [socket_accept, hs, socket_alloc, hp]
  · intro ha
    refine ⟨socket_init { family := server.family, protocol := server.protocol, pool := some freshId, handle := none }, ?_, rfl, rfl⟩
    simp [socket_accept, hs, socket_alloc, socket_init, ha]
  · intro c
    by_cases ha : acceptStatus = APR_SUCCESS
    · subst ha
      simp [socket_accept, hs, socket_alloc, socket_init]
    · simp [socket_accept, hs, socket_alloc, socket_init, ha]
  · intro c hc
    by_cases ha : acceptStatus = APR_SUCCESS
    · exact ha
    · simp [socket_accept, hs, socket_alloc, socket_init, ha] at hc

/-- C2, witness: a failed `apr_pool_create` (status 12) reaches the
undefined `socket_init` call, and a timed-out native accept (status 70007)
returns the error pair with the initialized, handle-less client. -/
theorem C2_accept_failure_witness :
    (socket_accept 12 0 2 {} sock0).1 = .ub ∧
    (∃ c, (socket_accept APR_SUCCESS 70007 2 {} sock0).1 = .err 70007 c ∧
      c.buffersInit = true ∧ c.handle = none) := by
  have h := C2_accept_failure 12 70007 2 {} sock0 {} rfl
  exact ⟨h.1 (by decide), h.2.1 (by decide)⟩

/-- C4: on an open handle, when the native timeout calls succeed
(`apr_socket_timeout_set` and `apr_socket_timeout_get` both return
`APR_SUCCESS`; their failures are surfaced separately as the
`nil` + message pair), the timeout setting round-trips through the
three-way encoding: `timeout_set(true)` reads back as `true` (forever),
`timeout_set(false)` as `false` (immediate), and `timeout_set(n)` for
positive `n` as the number `n`. -/
theorem C4_timeout_roundtrip (o : lua_apr_socket) (h : AprSocket) (n : Int)
    (hopen : o.handle = some h) (hn : 0 < n) :
    (socket_timeout_get APR_SUCCESS
      ((socket_timeout_set APR_SUCCESS o (.boolean true)).2.1)).1 =
      .ok (.boolean true) ∧
    (socket_timeout_get APR_SUCCESS
      ((socket_timeout_set APR_SUCCESS o (.boolean false)).2.1)).1 =
      .ok (.boolean false) ∧
    (socket_timeout_get APR_SUCCESS
      ((socket_timeout_set APR_SUCCESS o (.number n)).2.1)).1 =
      .ok (.number n) := by
  have key : ∀ v : LuaVal, (socket_timeout_set APR_SUCCESS o v).2.1 =
      { o with handle := some { h with timeout :=
        (if lua_isnumber v then luaL_checkinteger_val v
          else if lua_toboolean v then -1 else 0) } } := by
    intro v
    simp [socket_timeout_set, hopen, APR_SUCCESS]
  refine ⟨?_, ?_, ?_⟩
  · rw [key]
    norm_num [socket_timeout_get, lua_isnumber, lua_toboolean, APR_SUCCESS]
  · rw [key]
    norm_num [socket_timeout_get, lua_isnumber, lua_toboolean, APR_SUCCESS]
  · rw [key]
    have hle : ¬ ((n : Int) ≤ 0) := by omega
    simp [socket_timeout_get, lua_isnumber, luaL_checkinteger_val, hle,
      APR_SUCCESS]

/-- C4, witness: the round-trip at the concrete open socket with
`n = 1500000`. -/
theorem C4_timeout_roundtrip_witness :
    (socket_timeout_get APR_SUCCESS
      ((socket_timeout_set APR_SUCCESS sock0 (.boolean true)).2.1)).1 =
      .ok (.boolean true) ∧
    (socket_timeout_get APR_SUCCESS
      ((socket_timeout_set APR_SUCCESS sock0 (.number 1500000)).2.1)).1 =
      .ok (.number 1500000) := by
  have h := C4_timeout_roundtrip sock0 {} 1500000 rfl (by decide)
  exact ⟨h.1, h.2.2⟩

/-- Helper: `socket_connect` never touches `family`/`protocol`. -/
lemma socket_connect_keeps (a b : Nat) (o : lua_apr_socket) (host : String)
    (port : Int) :
    ((socket_connect a b o host port).2.1).family = o.family ∧
    ((socket_connect a b o host port).2.1).protocol = o.protocol := by
  unfold socket_connect
  refine ⟨?_, ?_⟩ <;> (repeat' split) <;> rfl

/-- Helper: `socket_bind` never touches `family`/`protocol`. -/
lemma socket_bind_keeps (a b : Nat) (o : lua_apr_socket) (host : String)
    (port : Int) :
    ((socket_bind a b o host port).2.1).family = o.family ∧
    ((socket_bind a b o host port).2.1).protocol = o.protocol := by
  unfold socket_bind
  refine ⟨?_, ?_⟩ <;> (repeat' split) <;> rfl

/-- Helper: `socket_listen` never touches `family`/`protocol`. -/
lemma socket_listen_keeps (a : Nat) (o : lua_apr_socket) (backlog : Int) :
    ((socket_listen a o backlog).2.1).family = o.family ∧
    ((socket_listen a o backlog).2.1).protocol = o.protocol := by
  unfold socket_listen apr_socket_listen
  refine ⟨?_, ?_⟩ <;> (repeat' split) <;> rfl

/-- Helper: `socket_write` never touches `family`/`protocol`. -/
lemma socket_write_keeps (a : Nat) (o : lua_apr_socket) (vs : List String) :
    ((socket_write a o vs).2.1).family = o.family ∧
    ((socket_write a o vs).2.1).protocol = o.protocol := by
  unfold socket_write
  refine ⟨?_, ?_⟩ <;> (repeat' split) <;> rfl

/-- Helper: `socket_close_impl` never touches `family`/`protocol`. -/
lemma socket_close_impl_keeps (a : Nat) (o : lua_apr_socket) :
    ((socket_close_impl a o).2.1).family = o.family ∧
    ((socket_close_impl a o).2.1).protocol = o.protocol := by
  cases o with
  | mk input output pool handle family protocol buffersInit =>
    cases handle <;> cases pool <;> exact ⟨rfl, rfl⟩

/-- Helper: `socket_close` never touches `family`/`protocol`. -/
lemma socket_close_keeps (a : Nat) (o : lua_apr_socket) :
    ((socket_close a o).2.1).family = o.family ∧
    ((socket_close a o).2.1).protocol = o.protocol := by
  by_cases hn : o.handle.isNone
  · constructor <;> simp [socket_close, socket_check, hn]
  · constructor
    · have h1 := (socket_close_impl_keeps a o).1
      simpa [socket_close, socket_check, hn] using h1
    · have h2 := (socket_close_impl_keeps a o).2
      simpa [socket_close, socket_check, hn] using h2

/-- Helper: `socket_gc` never touches `family`/`protocol`. -/
lemma socket_gc_keeps (a : Nat) (o : lua_apr_socket) :
    ((socket_gc a o).1).family = o.family ∧
    ((socket_gc a o).1).protocol = o.protocol := by
  constructor
  · have h1 := (socket_close_impl_keeps a o).1
    simpa [socket_gc, socket_check] using h1
  · have h2 := (socket_close_impl_keeps a o).2
    simpa [socket_gc, socket_check] using h2

/-- Helper: `socket_timeout_set` never touches `family`/`protocol`. -/
lemma socket_timeout_set_keeps (a : Nat) (o : lua_apr_socket) (v : LuaVal) :
    ((socket_timeout_set a o v).2.1).family = o.family ∧
    ((socket_timeout_set a o v).2.1).protocol = o.protocol := by
  unfold socket_timeout_set
  refine ⟨?_, ?_⟩ <;> (repeat' split) <;> rfl

/-- C5: a successful `accept` returns a client object carrying exactly the
server's family and protocol and owning the freshly created arena (so it is
distinct from the server object whenever the arena really is fresh); and no
socket operation ever changes an object's `family` or `protocol` fields. -/
theorem C5_accept_shares_family_protocol (poolStatus acceptStatus freshId : Nat)
    (ns : AprSocket) (server : lua_apr_socket) (sh : AprSocket)
    (client : lua_apr_socket) (hs : server.handle = some sh)
    (hok : (socket_accept poolStatus acceptStatus freshId ns server).1 =
      .ok client) :
    (client.family = server.family ∧ client.protocol = server.protocol ∧
      client.pool = some freshId ∧
      (server.pool ≠ some freshId → client ≠ server)) ∧
    (∀ (o : lua_apr_socket) (a b : Nat) (host : String) (port : Int)
      (vs : List String) (v : LuaVal),
      ((socket_connect a b o host port).2.1).family = o.family ∧
      ((socket_connect a b o host port).2.1).protocol = o.protocol ∧
      ((socket_bind a b o host port).2.1).family = o.family ∧
      ((socket_bind a b o host port).2.1).protocol = o.protocol ∧
      ((socket_listen a o port).2.1).family = o.family ∧
      ((socket_listen a o port).2.1).protocol = o.protocol ∧
      ((socket_write a o vs).2.1).family = o.family ∧
      ((socket_write a o vs).2.1).protocol = o.protocol ∧
      ((socket_close a o).2.1).family = o.family ∧
      ((socket_close a o).2.1).protocol = o.protocol ∧
      ((socket_gc a o).1).family = o.family ∧
      ((socket_gc a o).1).protocol = o.protocol ∧
      ((socket_timeout_set a o v).2.1).family = o.family ∧
      ((socket_timeout_set a o v).2.1).protocol = o.protocol) := by
  constructor
  · by_cases hp : poolStatus = APR_SUCCESS
    · by_cases ha : acceptStatus = APR_SUCCESS
      · subst hp; subst ha
        simp [socket_accept, hs, socket_alloc, socket_init, APR_SUCCESS]
          at hok
        refine ⟨?_, ?_, ?_, ?_⟩ <;> simp [← hok]
        intro hfresh hcs
        apply hfresh
        rw [← hcs]
      · simp [socket_accept, hs, socket_alloc, socket_init, hp, ha] at hok
    · simp [socket_accept, hs, socket_alloc, socket_init, hp] at hok
  · intro o a b host port vs v
    exact ⟨(socket_connect_keeps a b o host port).1,
      (socket_connect_keeps a b o host port).2,
      (socket_bind_keeps a b o host port).1,
      (socket_bind_keeps a b o host port).2,
      (socket_listen_keeps a o port).1, (socket_listen_keeps a o port).2,
      (socket_write_keeps a o vs).1, (socket_write_keeps a o vs).2,
      (socket_close_keeps a o).1, (socket_close_keeps a o).2,
      (socket_gc_keeps a o).1, (socket_gc_keeps a o).2,
      (socket_timeout_set_keeps a o v).1, (socket_timeout_set_keeps a o v).2⟩

/-- C5, witness: a successful accept from the concrete open server. -/
theorem C5_accept_witness :
    ∃ client, (socket_accept APR_SUCCESS APR_SUCCESS 2 {} sock0).1 =
      .ok client ∧
    client.family = sock0.family ∧ client.protocol = sock0.protocol ∧
    client ≠ sock0 := by
  obtain ⟨client, hclient⟩ :
      ∃ c, (socket_accept APR_SUCCESS APR_SUCCESS 2 {} sock0).1 =
        .ok c := ⟨_, rfl⟩
  have h := C5_accept_shares_family_protocol APR_SUCCESS APR_SUCCESS 2 {}
    sock0 {} client rfl hclient
  exact ⟨client, hclient, h.1.1, h.1.2.1, h.1.2.2.2 (by decide)⟩

/-- C6: `write` on an open handle always flushes synchronously: on success
the output buffer is empty and everything written (old buffered data plus
the new values) has been handed to the native send path; when the flush
fails, `write` returns the `nil` + message pair and nothing new is marked
sent; success is only ever reported with the buffer flushed. -/
theorem C6_write_flushes (o : lua_apr_socket) (h : AprSocket) (sendStatus : Nat)
    (vs : List String) (hopen : o.handle = some h) :
    (sendStatus = APR_SUCCESS →
      (socket_write sendStatus o vs).1 = .ok 1 ∧
      ((socket_write sendStatus o vs).2.1).output.data = [] ∧
      ((socket_write sendStatus o vs).2.1).output.sent =
        o.output.sent ++ o.output.data ++ vs) ∧
    (sendStatus ≠ APR_SUCCESS →
      (socket_write sendStatus o vs).1 = .err sendStatus ∧
      ((socket_write sendStatus o vs).2.1).output.sent = o.output.sent) ∧
    (∀ r, (socket_write sendStatus o vs).1 = .ok r →
      ((socket_write sendStatus o vs).2.1).output.data = []) := by
  by_cases hsd : sendStatus = APR_SUCCESS
  · subst hsd
    refine ⟨fun _ => ?_, fun hne => absurd rfl hne, fun r _ => ?_⟩ <;>
      simp [socket_write, write_buffer, flush_buffer, hopen, APR_SUCCESS]
  · refine ⟨fun heq => absurd heq hsd, fun _ => ?_, fun r hr => ?_⟩
    · simp [socket_write, write_buffer, flush_buffer, hopen, hsd]
    · simp [socket_write, write_buffer, flush_buffer, hopen, hsd] at hr

/-- C6, witness: a successful and a failing flush at the concrete open
socket. -/
theorem C6_write_flushes_witness :
    (socket_write APR_SUCCESS sock0 ["abc", "def"]).1 = .ok 1 ∧
    ((socket_write APR_SUCCESS sock0 ["abc", "def"]).2.1).output.sent =
      ["abc", "def"] ∧
    (socket_write 32 sock0 ["abc"]).1 = .err 32 := by
  have h1 := C6_write_flushes sock0 {} APR_SUCCESS ["abc", "def"] rfl
  have h2 := C6_write_flushes sock0 {} 32 ["abc"] rfl
  refine ⟨(h1.1 rfl).1, ?_, (h2.2.1 (by decide)).1⟩
  have := (h1.1 rfl).2.2
  simpa [sock0] using this

/-- C7, counterexample: the backlog argument `-4294967291` is negative, but
the source first narrows it to `apr_int32_t`, where it wraps to `5`, so
`listen` installs a queue of size `5` — not `0` as the claim states for
every negative backlog. -/
theorem C7_negative_backlog_wrap_cex :
    ((-4294967291 : Int) < 0) ∧
    ((socket_listen APR_SUCCESS sock0 (-4294967291)).2.1).handle =
      some { timeout := -1, listening := true, queue := 5 } ∧
    (5 : Nat) ≠ 0 := by
  refine ⟨by decide, by decide, by decide⟩

/-- C7, amended: `listen` on an open handle performs exactly the one
non-blocking native `apr_socket_listen` call; the backlog argument is first
narrowed to `apr_int32_t` (mod 2^32), and the installed listen queue size
is zero whenever the narrowed backlog is negative — in particular for every
negative backlog within the 32-bit range — while a non-negative narrowed
backlog is used as given. -/
theorem C7_listen_clamps (o : lua_apr_socket) (h : AprSocket)
    (backlog : Int) (hopen : o.handle = some h) :
    (socket_listen APR_SUCCESS o backlog).2.2 = ["apr_socket_listen"] ∧
    (socket_listen APR_SUCCESS o backlog).1 = .ok true ∧
    (∃ h', ((socket_listen APR_SUCCESS o backlog).2.1).handle = some h' ∧
      h'.listening = true ∧
      (toInt32 backlog < 0 → h'.queue = 0) ∧
      (-(2 ^ 31) ≤ backlog → backlog < 0 → h'.queue = 0) ∧
      (0 ≤ toInt32 backlog → h'.queue = (toInt32 backlog).toNat)) := by
  have hres : socket_listen APR_SUCCESS o backlog =
      (push_status APR_SUCCESS,
        { o with handle := some { h with listening := true, queue := (if toInt32 backlog < 0 then 0 else (toInt32 backlog).toNat) } },
        ["apr_socket_listen"]) := by
    simp [socket_listen, apr_socket_listen, hopen, APR_SUCCESS]
  rw [hres]
  refine ⟨rfl, by simp [push_status, APR_SUCCESS], _, rfl, rfl, ?_, ?_, ?_⟩
  · intro hneg
    simp [if_pos hneg]
  · intro hlo hneg
    have hid : toInt32 backlog = backlog := by
      unfold toInt32
      omega
    rw [if_pos (show toInt32 backlog < 0 by rw [hid]; exact hneg)]
  · intro hge
    rw [if_neg (by omega)]

/-- C8: the family-token mapping: an absent argument defaults to `"inet"`
(→ `APR_INET`), `"inet"`/`"unspec"` (and `"inet6"` when the platform has
IPv6) map to the platform constants, and any other token — including
`"inet6"` on a platform without IPv6 — raises an immediate parameter error,
which `socket_create`, `host_to_addr` and `addr_to_host` all propagate as a
raised error with no allocation or native call performed. -/
theorem C8_family_tokens (haveIPv6 : Bool) (tok : String)
    (hbad : ¬ (tok = "inet" ∨ tok = "unspec" ∨
      (tok = "inet6" ∧ haveIPv6 = true))) :
    family_check haveIPv6 none = .ok APR_INET ∧
    family_check haveIPv6 (some "inet") = .ok APR_INET ∧
    family_check haveIPv6 (some "unspec") = .ok APR_UNSPEC ∧
    family_check true (some "inet6") = .ok APR_INET6 ∧
    family_check haveIPv6 (some tok) = .error ("invalid option " ++ tok) ∧
    (∀ ps cs fid, lua_apr_socket_create haveIPv6 ps cs fid none (some tok) =
      (.raised ("invalid option " ++ tok), [])) ∧
    (∀ a b ip host, lua_apr_host_to_addr haveIPv6 a b ip host (some tok) =
      (.raised ("invalid option " ++ tok), [])) ∧
    (∀ a b hostR ip, lua_apr_addr_to_host haveIPv6 a b hostR ip (some tok) =
      (.raised ("invalid option " ++ tok), [])) := by
  have h1 : ¬ (tok = "inet") := fun hx => hbad (Or.inl hx)
  have h2 : ¬ (tok = "unspec") := fun hx => hbad (Or.inr (Or.inl hx))
  have h3 : ¬ (tok = "inet6" ∧ haveIPv6 = true) :=
    fun hx => hbad (Or.inr (Or.inr hx))
  have hfc : family_check haveIPv6 (some tok) =
      .error ("invalid option " ++ tok) := by
    simp only [family_check, Option.getD_some]
    rw [if_neg h1, if_neg h3, if_neg h2]
  refine ⟨?_, ?_, ?_, ?_, hfc, ?_, ?_, ?_⟩
  · rfl
  · rfl
  · rfl
  · rfl
  · intro ps cs fid
    simp [lua_apr_socket_create, proto_check, hfc]
  · intro a b ip host
    simp [lua_apr_host_to_addr, hfc]
  · intro a b hostR ip
    simp [lua_apr_addr_to_host, hfc]

/-- C8, witness: `"inet6"` on a platform without IPv6, and the token
`"ipx"`, both raise the parameter error in `socket_create`. -/
theorem C8_family_tokens_witness :
    lua_apr_socket_create false 0 0 1 none (some "inet6") =
      (.raised "invalid option inet6", []) ∧
    lua_apr_socket_create true 0 0 1 none (some "ipx") =
      (.raised "invalid option ipx", []) ∧
    family_check false none = .ok APR_INET := by
  have h6 := C8_family_tokens false "inet6" (by decide)
  have hx := C8_family_tokens true "ipx" (by decide)
  exact ⟨h6.2.2.2.2.2.1 0 0 1, hx.2.2.2.2.2.1 0 0 1, h6.1⟩

/-- C10, counterexample: the numeric string `"123"` is not a Lua number,
yet `lua_isnumber` accepts it, so `timeout_set` stores `123` and the
subsequent `timeout_get` returns the number `123` — not the "forever"
value `true` that coercion by truthiness (the claim's behaviour for
strings) would produce. -/
theorem C10_numeric_string_cex :
    (socket_timeout_get APR_SUCCESS
      ((socket_timeout_set APR_SUCCESS sock0 (.str "123")).2.1)).1 =
      .ok (.number 123) ∧
    (LuaResult.ok (LuaVal.number 123) : LuaResult LuaVal) ≠
      .ok (.boolean true) := by
  decide

/-- C10 amended: `timeout_set` on an open handle never raises for any
argument value — its only failure mode is the fallible native
`apr_socket_timeout_set` status, surfaced as the `nil` + message pair; any
value accepted by `lua_isnumber` (numbers, and strings convertible to
numbers) is passed through to the native layer unchanged — in particular a
negative integer, which then reads back as `true` (forever) when the native
calls succeed — while every other value is coerced by truthiness: truthy to
`-1` (forever), `nil`/`false` to `0` (immediate). -/
theorem C10_timeout_set_coercion (o : lua_apr_socket) (h : AprSocket)
    (v : LuaVal) (n : Int) (setStatus : Nat) (hopen : o.handle = some h)
    (hneg : n < 0) :
    (∀ m, (socket_timeout_set setStatus o v).1 ≠ .raised m) ∧
    (setStatus ≠ APR_SUCCESS →
      (socket_timeout_set setStatus o v).1 = .err setStatus) ∧
    (socket_timeout_get APR_SUCCESS
      ((socket_timeout_set APR_SUCCESS o (.number n)).2.1)).1 =
      .ok (.boolean true) ∧
    (lua_isnumber v = true →
      (socket_timeout_set APR_SUCCESS o v).2.1 =
        { o with handle := some { h with timeout := luaL_checkinteger_val v } }) ∧
    (lua_isnumber v = false → lua_toboolean v = true →
      (socket_timeout_set APR_SUCCESS o v).2.1 =
        { o with handle := some { h with timeout := -1 } }) ∧
    (lua_isnumber v = false → lua_toboolean v = false →
      (socket_timeout_set APR_SUCCESS o v).2.1 =
        { o with handle := some { h with timeout := 0 } }) := by
  refine ⟨?_, ?_, ?_, ?_, ?_, ?_⟩
  · intro m
    by_cases hss : setStatus = APR_SUCCESS <;>
      simp [socket_timeout_set, push_status, hopen, hss]
  · intro hss
    simp [socket_timeout_set, push_status, hopen, hss]
  · have hle : (n : Int) ≤ 0 := by omega
    have hne : (n : Int) ≠ 0 := by omega
    simp [socket_timeout_set, socket_timeout_get, hopen, lua_isnumber,
      luaL_checkinteger_val, hle, hne, APR_SUCCESS]
  · intro hnum
    simp [socket_timeout_set, hopen, hnum, APR_SUCCESS]
  · intro hnum htruthy
    simp [socket_timeout_set, hopen, hnum, htruthy, APR_SUCCESS]
  · intro hnum htruthy
    simp [socket_timeout_set, hopen, hnum, htruthy, APR_SUCCESS]

/-- C10, witness: the amended behaviour at the concrete open socket — a
table argument (truthy non-number) is stored as forever (`-1`), a native
failure surfaces as the error pair, and `n = -5` reads back as `true`. -/
theorem C10_timeout_set_coercion_witness :
    (socket_timeout_set APR_SUCCESS sock0 .table).2.1 =
      { sock0 with handle := some { timeout := -1 } } ∧
    (socket_timeout_set 22 sock0 .table).1 = .err 22 ∧
    (socket_timeout_get APR_SUCCESS
      ((socket_timeout_set APR_SUCCESS sock0 (.number (-5))).2.1)).1 =
      .ok (.boolean true) := by
  have h := C10_timeout_set_coercion sock0 {} .table (-5) 22 rfl (by decide)
  exact ⟨h.2.2.2.2.1 rfl rfl, h.2.1 (by decide), h.2.2.1⟩

/-- C7, witness: backlog `-3` (negative, inside the 32-bit range) installs
queue `0`, backlog `5` installs queue `5`, at the concrete open socket. -/
theorem C7_listen_clamps_witness :
    (∃ h', ((socket_listen APR_SUCCESS sock0 (-3)).2.1).handle = some h' ∧
      h'.queue = 0) ∧
    (∃ h', ((socket_listen APR_SUCCESS sock0 5).2.1).handle = some h' ∧
      h'.queue = 5) := by
  obtain ⟨h1, hh1, -, hneg1, -, -⟩ :=
    (C7_listen_clamps sock0 {} (-3) rfl).2.2
  obtain ⟨h2, hh2, -, -, -, hpos2⟩ :=
    (C7_listen_clamps sock0 {} 5 rfl).2.2
  have h5 : (toInt32 5).toNat = 5 := by decide
  exact ⟨⟨h1, hh1, hneg1 (by decide)⟩,
    ⟨h2, hh2, by rw [hpos2 (by decide), h5]⟩⟩
